import Mathlib

/-
Verification of the scan-resolution logic and scanner lifecycle of the
icb-berlin-qr-checkin repository.

The embedding covers the page component in src/src/pages/QrScanner.tsx
(the commit function handleScan and the validation wrapper
validateAndHandleScan) and the camera component in
src/components/QrScanner.tsx (the decode handler, the confirm and cancel
handlers and the timer bookkeeping).  The Firestore helpers imported from
src/utils/firebase.ts are not part of the analysed sources, so the five
store operations are modelled from the external-interface table of the
design document.
-/

namespace QrCheckin

/-- An activity (class) record: identifier and display name. -/
structure Activity where
  id : String
  name : String
deriving DecidableEq, Repr

/-- A participant record: identifier, display name and the QR payload used
as lookup key. -/
structure Participant where
  id : String
  name : String
  qrCode : String
deriving DecidableEq, Repr

/-- The scan type selected on the page: departure, return (called ret here
because of the Lean keyword) or nothing selected yet (the empty string in
the page state). -/
inductive ScanType
  | departure
  | ret
  | empty
deriving DecidableEq, Repr

/-- The type tag of an activity log entry. -/
inductive LogType
  | departure
  | ret
  | change
deriving DecidableEq, Repr

/-- One immutable movement record, mirroring the object literals passed to
createActivityLog in the page.  The activityId field is optional because
the page can pass null for it. -/
structure ActivityLog where
  eventId : String
  participantId : String
  activityId : Option String
  fromActivityId : Option String
  leaderId : String
  type : LogType
deriving DecidableEq, Repr

/-- Modelled from the spec: the external document store of the
external-interface section (participants, read-only activities, the
mutable current-activity pointer per participant, and the append-only
log).  The file src/utils/firebase.ts is not among the analysed sources. -/
structure Store where
  participants : List Participant
  activities : List Activity
  currentActivityId : String → Option String
  logs : List ActivityLog

/-- Modelled from the spec: findParticipantByCode, a keyed lookup of a
participant by QR payload. -/
def Store.getParticipantByQrCode (st : Store) (qrCode : String) : Option Participant :=
  st.participants.find? (fun p => p.qrCode == qrCode)

/-- Modelled from the spec: getCurrentActivity, returning the Activity the
participant is currently at, or none. -/
def Store.getParticipantCurrentActivity (st : Store) (participantId : String) :
    Option Activity :=
  match st.currentActivityId participantId with
  | none => none
  | some aid => st.activities.find? (fun a => a.id == aid)

/-- Modelled from the spec: appendActivityLog, appending exactly one record
to the append-only log. -/
def Store.createActivityLog (st : Store) (log : ActivityLog) : Store :=
  { st with logs := st.logs ++ [log] }

/-- Modelled from the spec: setParticipantLocation, overwriting the
currentActivityId pointer of one participant. -/
def Store.updateParticipantLocation (st : Store) (_eventId : String)
    (participantId : String) (activityId : Option String) : Store :=
  { st with currentActivityId :=
      fun p => if p = participantId then activityId else st.currentActivityId p }

/-- The ambient inputs of the page component: the route parameter, the
authenticated user id, the two pieces of page state read by the handlers,
and flags saying which of the three store calls of the commit reject. -/
structure PageEnv where
  eventId : Option String
  userId : Option String
  scanType : ScanType
  selectedActivityId : String
  fetchCurrentFails : Bool
  createLogFails : Bool
  updateLocationFails : Bool

namespace Page

/-- Embedding of handleScan of the page (src/src/pages/QrScanner.tsx,
lines 51 to 111): the commit of one confirmed scan.  Returns the value the
promise resolves to together with the store after the calls that were
made.  A rejecting store call is modelled by the corresponding flag of the
environment; the try block catches it and resolves to false, keeping any
writes already performed. -/
def handleScan (env : PageEnv) (st : Store) (participantId : String)
    (activityId : Option String) : Bool × Store :=
  match env.eventId with
  | none => (false, st)
  | some eventId =>
    if eventId = "" then (false, st)
    else
      match env.userId with
      | none => (false, st)
      | some leaderId =>
        if leaderId = "" then (false, st)
        else if env.fetchCurrentFails then (false, st)
        else
          let currentActivity := st.getParticipantCurrentActivity participantId
          match env.scanType with
          | ScanType.departure =>
            match currentActivity with
            | some ca =>
              if some ca.id = activityId then (false, st)
              else if env.createLogFails then (false, st)
              else
                let st1 := st.createActivityLog
                  { eventId := eventId, participantId := participantId,
                    activityId := activityId, fromActivityId := some ca.id,
                    leaderId := leaderId, type := LogType.change }
                if env.updateLocationFails then (false, st1)
                else (true, st1.updateParticipantLocation eventId participantId activityId)
            | none =>
              if env.createLogFails then (false, st)
              else
                let st1 := st.createActivityLog
                  { eventId := eventId, participantId := participantId,
                    activityId := activityId, fromActivityId := none,
                    leaderId := leaderId, type := LogType.departure }
                if env.updateLocationFails then (false, st1)
                else (true, st1.updateParticipantLocation eventId participantId activityId)
          | ScanType.ret =>
            match currentActivity with
            | none => (false, st)
            | some ca =>
              if env.createLogFails then (false, st)
              else
                let st1 := st.createActivityLog
                  { eventId := eventId, participantId := participantId,
                    activityId := some ca.id, fromActivityId := none,
                    leaderId := leaderId, type := LogType.ret }
                if env.updateLocationFails then (false, st1)
                else (true, st1.updateParticipantLocation eventId participantId none)
          | ScanType.empty => (true, st)

/-- Embedding of validateAndHandleScan of the page (lines 113 to 129): the
caller-side validation in front of handleScan.  The second argument is
ignored by the source, which recomputes the activity from the page state. -/
def validateAndHandleScan (env : PageEnv) (st : Store) (participantId : String)
    (_activityId : Option String) : Bool × Store :=
  let activityId := if env.selectedActivityId = "" then none
                    else some env.selectedActivityId
  if env.scanType = ScanType.empty then (false, st)
  else if env.scanType = ScanType.departure ∧ activityId = none then (false, st)
  else handleScan env st participantId activityId

/-- Embedding of getCurrentActivity of the page (lines 144 to 151): the
wrapper handed to the camera component, which swallows a failing fetch and
returns none. -/
def getCurrentActivityWrapped (fails : Bool) (st : Store) (participantId : String) :
    Option Activity :=
  if fails then none else st.getParticipantCurrentActivity participantId

end Page

/-- The kinds of timers the camera component schedules: the tracked 60 s
idle timer, the 500 ms re-arm delay inside resetScanner, the 3 s error
cooldown, the 1 s delay after a confirm and the 500 ms delay after a
cancel. -/
inductive TimerKind
  | idle
  | rearmDelay
  | errCooldown
  | postConfirm
  | postCancel
deriving DecidableEq, Repr

/-- One scheduled timeout: a fresh numeric handle and its kind. -/
structure Timer where
  id : Nat
  kind : TimerKind
deriving DecidableEq, Repr

/-- The timer bookkeeping of the component: the next fresh handle, the
idleTimer ref (the only handle the source stores) and the multiset of
currently pending timeouts. -/
structure TimerState where
  nextId : Nat
  idleRef : Option Nat
  pending : List Timer
deriving DecidableEq, Repr

/-- Embedding of the clearTimeout call on the stored idleTimer handle. -/
def TimerState.clearIdleTimeout (ts : TimerState) : TimerState :=
  match ts.idleRef with
  | none => ts
  | some i => { ts with pending := ts.pending.filter (fun t => t.id != i) }

/-- Embedding of an anonymous setTimeout call: the handle is fresh and is
not stored anywhere, so the timeout can never be cancelled. -/
def TimerState.schedule (ts : TimerState) (k : TimerKind) : TimerState :=
  { ts with nextId := ts.nextId + 1,
            pending := ts.pending ++ [{ id := ts.nextId, kind := k }] }

/-- Embedding of the setTimeout call whose handle is stored in the
idleTimer ref. -/
def TimerState.scheduleIdle (ts : TimerState) : TimerState :=
  { ts with nextId := ts.nextId + 1, idleRef := some ts.nextId,
            pending := ts.pending ++ [{ id := ts.nextId, kind := TimerKind.idle }] }

/-- Embedding of resetIdleTimer of the component (lines 349 to 355):
clear the stored idle timeout, then schedule a fresh one and store its
handle. -/
def resetIdleTimer (ts : TimerState) : TimerState :=
  ts.clearIdleTimeout.scheduleIdle

/-- Feedback sounds played by the component. -/
inductive Sound
  | success
  | error
deriving DecidableEq, Repr

/-- The React state of the camera component. -/
structure CompState where
  scanning : Bool
  scannerKey : Nat
  error : Option String
  confirmModalOpen : Bool
  scannedParticipant : Option Participant
  currentActivity : Option Activity
deriving DecidableEq, Repr

/-- The props and failure modes of the camera component: the scan type and
selected activity passed down from the page, a flag saying the
getParticipantInfo prop rejects, and the flag of the swallowing
getCurrentActivity wrapper. -/
structure CompEnv where
  scanType : ScanType
  selectedActivity : Option Activity
  infoLookupFails : Bool
  currentLookupFails : Bool

/-- The outcome of one component handler run: new component state, timer
bookkeeping, store, and the feedback sounds played. -/
structure CompResult where
  comp : CompState
  timers : TimerState
  store : Store
  sounds : List Sound

/-- Drop the leading whitespace characters of a character list. -/
def dropLeadingWs : List Char → List Char
  | [] => []
  | c :: cs => if c.isWhitespace then dropLeadingWs cs else c :: cs

/-- Executable model of the JavaScript built-in String.prototype.trim used
by the component: strip leading and trailing whitespace. -/
def trimString (s : String) : String :=
  ⟨(dropLeadingWs (dropLeadingWs s.data).reverse).reverse⟩

namespace Comp

/-- Embedding of resetScanner of the component (lines 357 to 365): clear
the idle timeout, drop the scanning flag, bump the remount key and
schedule the anonymous 500 ms re-arm timeout. -/
def resetScanner (cs : CompState) (ts : TimerState) : CompState × TimerState :=
  ({ cs with scanning := false, scannerKey := cs.scannerKey + 1 },
    ts.clearIdleTimeout.schedule TimerKind.rearmDelay)

/-- Embedding of the body of the 500 ms callback inside resetScanner:
turn scanning back on and reset the idle timer. -/
def rearmFire (cs : CompState) (ts : TimerState) : CompState × TimerState :=
  ({ cs with scanning := true }, resetIdleTimer ts)

/-- Embedding of the body of the 3 s callback of the duplicate-departure
guard (lines 402 to 407): clear the error and the scanned participant and
reset the scanner. -/
def guardCooldownFire (cs : CompState) (ts : TimerState) : CompState × TimerState :=
  resetScanner
    { cs with error := none, scannedParticipant := none, currentActivity := none } ts

/-- Embedding of the try block of the component handleScan after the code
has been trimmed and scanning has been switched off (lines 381 to 436). -/
def processCode (env : CompEnv) (st : Store) (cs : CompState) (ts : TimerState)
    (qrCode : String) : CompResult :=
  if env.infoLookupFails then
    ⟨{ cs with error := some "Error processing QR code." },
      ts.schedule TimerKind.errCooldown, st, [Sound.error]⟩
  else
    match st.getParticipantByQrCode qrCode with
    | none =>
      ⟨{ cs with error := some "Invalid QR code. Participant not found." },
        ts.schedule TimerKind.errCooldown, st, [Sound.error]⟩
    | some participant =>
      let cs1 := { cs with scannedParticipant := some participant }
      match env.scanType with
      | ScanType.departure =>
        let pa := Page.getCurrentActivityWrapped env.currentLookupFails st participant.id
        let cs2 := { cs1 with currentActivity := pa }
        match pa with
        | some a =>
          if some a.id = env.selectedActivity.map (fun s => s.id) then
            ⟨{ cs2 with
                error := some (participant.name ++ " is already at " ++ a.name ++ ".") },
              ts.schedule TimerKind.errCooldown, st, [Sound.error]⟩
          else
            ⟨{ cs2 with confirmModalOpen := true }, ts, st, [Sound.success]⟩
        | none =>
          ⟨{ cs2 with confirmModalOpen := true }, ts, st, [Sound.success]⟩
      | ScanType.ret =>
        match Page.getCurrentActivityWrapped env.currentLookupFails st participant.id with
        | none =>
          ⟨{ cs1 with error := some (participant.name ++ " is already at camp.") },
            ts.schedule TimerKind.errCooldown, st, [Sound.error]⟩
        | some a =>
          ⟨{ cs1 with currentActivity := some a, confirmModalOpen := true },
            ts, st, [Sound.success]⟩
      | ScanType.empty => ⟨cs1, ts, st, []⟩

/-- Embedding of handleScan of the component (lines 374 to 437): reset the
idle timer on every decode event, ignore empty payloads and decodes while
not scanning, trim the payload and process it. -/
def handleScan (env : CompEnv) (st : Store) (cs : CompState) (ts : TimerState)
    (data : Option String) : CompResult :=
  let ts1 := resetIdleTimer ts
  match data with
  | none => ⟨cs, ts1, st, []⟩
  | some text =>
    if text = "" ∨ cs.scanning = false then ⟨cs, ts1, st, []⟩
    else processCode env st { cs with scanning := false } ts1 (trimString text)

/-- Embedding of handleConfirm of the component (lines 439 to 458).  The
onScan prop is the validateAndHandleScan of the page, which never rejects,
so the catch branch of the source is unreachable and the success path runs
unconditionally: the boolean the page resolves with is discarded, the
modal is closed and the anonymous 1 s re-arm timeout is scheduled. -/
def handleConfirm (penv : PageEnv) (env : CompEnv) (st : Store) (cs : CompState)
    (ts : TimerState) : CompResult :=
  match cs.scannedParticipant with
  | none => ⟨cs, ts, st, []⟩
  | some p =>
    let activityId : Option String :=
      match env.scanType with
      | ScanType.departure =>
        match env.selectedActivity with
        | some a => if a.id = "" then none else some a.id
        | none => none
      | _ => none
    let r := Page.validateAndHandleScan penv st p.id activityId
    ⟨{ cs with
        confirmModalOpen := false
        scannedParticipant := none
        currentActivity := none },
      ts.schedule TimerKind.postConfirm, r.2, []⟩

/-- Embedding of handleCancel of the component (lines 460 to 465): close
the modal, clear the scanned participant, schedule the anonymous 500 ms
re-arm timeout.  No store operation is invoked. -/
def handleCancel (cs : CompState) (ts : TimerState) (st : Store) : CompResult :=
  ⟨{ cs with
      confirmModalOpen := false
      scannedParticipant := none
      currentActivity := none },
    ts.schedule TimerKind.postCancel, st, []⟩

/-- Embedding of the body of the 500 ms callback scheduled by
handleCancel: it just calls resetScanner. -/
def postCancelFire (cs : CompState) (ts : TimerState) : CompState × TimerState :=
  resetScanner cs ts

/-- Iterated cancellation: pressing cancel n + 1 times in a row, feeding
each resulting component state into the next press. -/
def cancelN : Nat → CompState → TimerState → Store → CompResult
  | 0, cs, ts, st => handleCancel cs ts st
  | Nat.succ n, cs, ts, st =>
    let r := cancelN n cs ts st
    handleCancel r.comp r.timers r.store

end Comp

/-- The timer-affecting operations the component can perform: the two
functions that touch the idle timer, the three anonymous cooldown and
re-arm schedulings, and the expiry of a pending timeout. -/
inductive TimerOp
  | resetIdleOp
  | resetScannerOp
  | cooldownOp
  | postConfirmOp
  | postCancelOp
  | fireOp (i : Nat)
deriving DecidableEq, Repr

/-- The effect of one timer operation on the timer bookkeeping. -/
def timerStep (ts : TimerState) : TimerOp → TimerState
  | TimerOp.resetIdleOp => resetIdleTimer ts
  | TimerOp.resetScannerOp => ts.clearIdleTimeout.schedule TimerKind.rearmDelay
  | TimerOp.cooldownOp => ts.schedule TimerKind.errCooldown
  | TimerOp.postConfirmOp => ts.schedule TimerKind.postConfirm
  | TimerOp.postCancelOp => ts.schedule TimerKind.postCancel
  | TimerOp.fireOp i => { ts with pending := ts.pending.filter (fun t => t.id != i) }

/-- The timer bookkeeping at mount: no handle stored, nothing pending. -/
def initTimers : TimerState := ⟨0, none, []⟩

/-- How many idle timers are pending. -/
def countIdle (ts : TimerState) : Nat :=
  ts.pending.countP (fun t => t.kind == TimerKind.idle)

/-- The idle-timer invariant: every pending idle timer carries the handle
stored in the ref, and at most one idle timer is pending. -/
def IdleOk (ts : TimerState) : Prop :=
  (∀ t ∈ ts.pending, t.kind = TimerKind.idle → ts.idleRef = some t.id) ∧
  countIdle ts ≤ 1

/-- The component state at mount. -/
def initComp : CompState := ⟨true, 0, none, false, none, none⟩

/-- A sample activity. -/
def actArt : Activity := ⟨"a1", "Art"⟩

/-- A second sample activity. -/
def actMusic : Activity := ⟨"a2", "Music"⟩

/-- A sample participant. -/
def alice : Participant := ⟨"p1", "Alice", "qr1"⟩

/-- A sample store in which the participant is currently at activity a1. -/
def stArt : Store :=
  ⟨[alice], [actArt, actMusic], fun p => if p = "p1" then some "a1" else none, []⟩

/-- A sample store in which the participant is at no activity. -/
def stCamp : Store := ⟨[alice], [actArt, actMusic], fun _ => none, []⟩

/-- A page environment for a departure scan towards a2 with all store
calls succeeding. -/
def envDep : PageEnv := ⟨some "e1", some "l1", ScanType.departure, "a2", false, false, false⟩

/-- A page environment for a return scan with all store calls
succeeding. -/
def envRet : PageEnv := ⟨some "e1", some "l1", ScanType.ret, "", false, false, false⟩

/-- A page environment in which no leader identity is available. -/
def envNoLeader : PageEnv := ⟨some "e1", none, ScanType.departure, "a2", false, false, false⟩

/-- A page environment for a departure scan towards a2 in which the
appendActivityLog call rejects. -/
def envDepFailLog : PageEnv :=
  ⟨some "e1", some "l1", ScanType.departure, "a2", false, true, false⟩

/-- A component environment for a departure scan towards the first sample
activity. -/
def envCompDepArt : CompEnv := ⟨ScanType.departure, some actArt, false, false⟩

/-- A component environment for a departure scan towards the second sample
activity. -/
def envCompDepMusic : CompEnv := ⟨ScanType.departure, some actMusic, false, false⟩

/-- The component state while the confirmation modal is open for the
sample participant currently at the first sample activity. -/
def csAwaiting : CompState := ⟨false, 0, none, true, some alice, some actArt⟩

/-- Helper: a list is never equal to itself with one more element
appended. -/
theorem logs_no_append {xs : List ActivityLog} {l : ActivityLog}
    (h : xs = xs ++ [l]) : False := by
  have hl := congrArg List.length h
  simp at hl

/-- Helper: appending single elements to the same list is injective. -/
theorem append_singleton_inj {xs : List ActivityLog} {a b : ActivityLog}
    (h : xs ++ [a] = xs ++ [b]) : a = b := by
  have h2 := List.append_cancel_left h
  simpa using h2

/-- C1: for a participant whose freshly fetched current activity is A and
a confirmed departure scan targeting B with B different from A, the page
commit appends exactly one change log with fromActivityId A and activityId
B, sets the location of the participant to B, and reports success. -/
theorem c1_departure_change_commit (env : PageEnv) (st : Store)
    (pid e l B : String) (A : Activity)
    (hev : env.eventId = some e) (he : e ≠ "")
    (hld : env.userId = some l) (hl : l ≠ "")
    (hty : env.scanType = ScanType.departure)
    (hf : env.fetchCurrentFails = false)
    (hcl : env.createLogFails = false)
    (hul : env.updateLocationFails = false)
    (hcur : st.getParticipantCurrentActivity pid = some A)
    (hne : A.id ≠ B) :
    (Page.handleScan env st pid (some B)).1 = true ∧
    (Page.handleScan env st pid (some B)).2.logs =
      st.logs ++ [⟨e, pid, some B, some A.id, l, LogType.change⟩] ∧
    (Page.handleScan env st pid (some B)).2.currentActivityId pid = some B := by
  simp [Page.handleScan, hev, he, hld, hl, hty, hf, hcl, hul, hcur, hne,
    Store.createActivityLog, Store.updateParticipantLocation]

/-- C1 witness at a concrete input. -/
theorem c1_departure_change_commit_witness :
    (Page.handleScan envDep stArt "p1" (some "a2")).1 = true ∧
    (Page.handleScan envDep stArt "p1" (some "a2")).2.logs =
      stArt.logs ++ [⟨"e1", "p1", some "a2", some "a1", "l1", LogType.change⟩] ∧
    (Page.handleScan envDep stArt "p1" (some "a2")).2.currentActivityId "p1" =
      some "a2" :=
  c1_departure_change_commit envDep stArt "p1" "e1" "l1" "a2" actArt rfl
    (by decide) rfl (by decide) rfl rfl rfl rfl (by decide) (by decide)

/-- C2: for a confirmed return scan, a participant with no freshly fetched
current activity is rejected without any log or mutation, and a
participant at activity a gets exactly one return log with that activity
and no fromActivityId, and the location cleared to none. -/
theorem c2_return_scan_commit (env : PageEnv) (st : Store) (pid : String)
    (aid : Option String) (e l : String)
    (hev : env.eventId = some e) (he : e ≠ "")
    (hld : env.userId = some l) (hl : l ≠ "")
    (hty : env.scanType = ScanType.ret)
    (hf : env.fetchCurrentFails = false) :
    (st.getParticipantCurrentActivity pid = none →
      Page.handleScan env st pid aid = (false, st)) ∧
    (∀ a : Activity, st.getParticipantCurrentActivity pid = some a →
      env.createLogFails = false → env.updateLocationFails = false →
      (Page.handleScan env st pid aid).1 = true ∧
      (Page.handleScan env st pid aid).2.logs =
        st.logs ++ [⟨e, pid, some a.id, none, l, LogType.ret⟩] ∧
      (Page.handleScan env st pid aid).2.currentActivityId pid = none) := by
  constructor
  · intro hcur
    simp [Page.handleScan, hev, he, hld, hl, hty, hf, hcur]
  · intro a hcur hcl hul
    simp [Page.handleScan, hev, he, hld, hl, hty, hf, hcur, hcl, hul,
      Store.createActivityLog, Store.updateParticipantLocation]

/-- C2 witness at concrete inputs: a rejected return for a participant at
no activity, and a committed return for a participant at activity a1. -/
theorem c2_return_scan_commit_witness :
    (Page.handleScan envRet stCamp "p1" none = (false, stCamp)) ∧
    ((Page.handleScan envRet stArt "p1" none).1 = true ∧
      (Page.handleScan envRet stArt "p1" none).2.logs =
        stArt.logs ++ [⟨"e1", "p1", some "a1", none, "l1", LogType.ret⟩] ∧
      (Page.handleScan envRet stArt "p1" none).2.currentActivityId "p1" = none) :=
  ⟨(c2_return_scan_commit envRet stCamp "p1" none "e1" "l1" rfl (by decide) rfl
      (by decide) rfl rfl).1 (by decide),
    (c2_return_scan_commit envRet stArt "p1" none "e1" "l1" rfl (by decide) rfl
      (by decide) rfl rfl).2 actArt (by decide) rfl rfl⟩

/-- C3: for a participant whose freshly fetched current activity is none,
a confirmed departure scan targeting B appends exactly one departure log
with no fromActivityId and sets the location of the participant to B. -/
theorem c3_departure_from_camp_commit (env : PageEnv) (st : Store)
    (pid e l B : String)
    (hev : env.eventId = some e) (he : e ≠ "")
    (hld : env.userId = some l) (hl : l ≠ "")
    (hty : env.scanType = ScanType.departure)
    (hf : env.fetchCurrentFails = false)
    (hcl : env.createLogFails = false)
    (hul : env.updateLocationFails = false)
    (hcur : st.getParticipantCurrentActivity pid = none) :
    (Page.handleScan env st pid (some B)).1 = true ∧
    (Page.handleScan env st pid (some B)).2.logs =
      st.logs ++ [⟨e, pid, some B, none, l, LogType.departure⟩] ∧
    (Page.handleScan env st pid (some B)).2.currentActivityId pid = some B := by
  simp [Page.handleScan, hev, he, hld, hl, hty, hf, hcl, hul, hcur,
    Store.createActivityLog, Store.updateParticipantLocation]

/-- C3 witness at a concrete input. -/
theorem c3_departure_from_camp_commit_witness :
    (Page.handleScan envDep stCamp "p1" (some "a2")).1 = true ∧
    (Page.handleScan envDep stCamp "p1" (some "a2")).2.logs =
      stCamp.logs ++ [⟨"e1", "p1", some "a2", none, "l1", LogType.departure⟩] ∧
    (Page.handleScan envDep stCamp "p1" (some "a2")).2.currentActivityId "p1" =
      some "a2" :=
  c3_departure_from_camp_commit envDep stCamp "p1" "e1" "l1" "a2" rfl (by decide)
    rfl (by decide) rfl rfl rfl rfl (by decide)

/-- C8: when no leader identity is available (no user, or a user with a
falsy id), the commit performs no store write at all and reports failure
to the caller, for every input. -/
theorem c8_no_leader_blocks (env : PageEnv) (st : Store) (pid : String)
    (aid : Option String)
    (h : env.userId = none ∨ env.userId = some "") :
    Page.handleScan env st pid aid = (false, st) := by
  unfold Page.handleScan
  rcases h with h | h <;> rw [h] <;> cases env.eventId <;> simp

/-- C8 witness at a concrete input. -/
theorem c8_no_leader_blocks_witness :
    Page.handleScan envNoLeader stArt "p1" (some "a2") = (false, stArt) :=
  c8_no_leader_blocks envNoLeader stArt "p1" (some "a2") (Or.inl rfl)

/-- Helper: a departure commit towards the activity the participant is
already at is rejected without any write, in every environment. -/
theorem handleScan_guard_reject (env : PageEnv) (st : Store) (pid : String)
    (a : Activity)
    (hsty : env.scanType = ScanType.departure)
    (hcur : st.getParticipantCurrentActivity pid = some a) :
    Page.handleScan env st pid (some a.id) = (false, st) := by
  unfold Page.handleScan
  cases hev : env.eventId with
  | none => rfl
  | some e =>
    by_cases he : e = ""
    · simp [he]
    cases hld : env.userId with
    | none => simp [he]
    | some u =>
      by_cases hu : u = ""
      · simp [he, hu]
      cases hff : env.fetchCurrentFails with
      | true => simp [he, hu, hff]
      | false => simp [he, hu, hff, hsty, hcur]

/-- Helper: a return commit for a participant with no freshly fetched
current activity is rejected without any write, in every environment. -/
theorem handleScan_ret_reject (env : PageEnv) (st : Store) (pid : String)
    (aid : Option String)
    (hsty : env.scanType = ScanType.ret)
    (hcur : st.getParticipantCurrentActivity pid = none) :
    Page.handleScan env st pid aid = (false, st) := by
  unfold Page.handleScan
  cases hev : env.eventId with
  | none => rfl
  | some e =>
    by_cases he : e = ""
    · simp [he]
    cases hld : env.userId with
    | none => simp [he]
    | some u =>
      by_cases hu : u = ""
      · simp [he, hu]
      cases hff : env.fetchCurrentFails with
      | true => simp [he, hu, hff]
      | false => simp [he, hu, hff, hsty, hcur]

/-- C6: every change log the commit appends is valid: the current activity
re-fetched at commit time is some activity a, the fromActivityId of the
log is a, and the target of the log differs from it; and a confirmation
that went stale so that a guard fails at commit time produces no log and
no mutation. -/
theorem c6_change_log_validity (env : PageEnv) (st : Store) (pid : String)
    (aid : Option String) :
    (∀ l : ActivityLog,
        (Page.handleScan env st pid aid).2.logs = st.logs ++ [l] →
        l.type = LogType.change →
        env.fetchCurrentFails = false ∧
        ∃ a : Activity, st.getParticipantCurrentActivity pid = some a ∧
          l.fromActivityId = some a.id ∧ l.activityId ≠ l.fromActivityId) ∧
    (∀ a : Activity, env.scanType = ScanType.departure →
        st.getParticipantCurrentActivity pid = some a → aid = some a.id →
        Page.handleScan env st pid aid = (false, st)) ∧
    (env.scanType = ScanType.ret →
        st.getParticipantCurrentActivity pid = none →
        Page.handleScan env st pid aid = (false, st)) := by
  refine ⟨?_, ?_, ?_⟩
  · obtain ⟨ev, uid, sty, sel, ff, cf, uf⟩ := env
    intro l h hty
    rcases ev with _ | e
    · exact (logs_no_append h).elim
    by_cases he : e = ""
    · have heq : (Page.handleScan ⟨some e, uid, sty, sel, ff, cf, uf⟩ st pid
          aid).2.logs = st.logs := by
        simp [Page.handleScan, he]
      rw [heq] at h
      exact (logs_no_append h).elim
    rcases uid with _ | u
    · have heq : (Page.handleScan ⟨some e, none, sty, sel, ff, cf, uf⟩ st pid
          aid).2.logs = st.logs := by
        simp [Page.handleScan, he]
      rw [heq] at h
      exact (logs_no_append h).elim
    by_cases hu : u = ""
    · have heq : (Page.handleScan ⟨some e, some u, sty, sel, ff, cf, uf⟩ st pid
          aid).2.logs = st.logs := by
        simp [Page.handleScan, he, hu]
      rw [heq] at h
      exact (logs_no_append h).elim
    cases ff with
    | true =>
      have heq : (Page.handleScan ⟨some e, some u, sty, sel, true, cf, uf⟩ st
          pid aid).2.logs = st.logs := by
        simp [Page.handleScan, he, hu]
      rw [heq] at h
      exact (logs_no_append h).elim
    | false =>
      cases sty with
      | empty =>
        have heq : (Page.handleScan ⟨some e, some u, ScanType.empty, sel,
            false, cf, uf⟩ st pid aid).2.logs = st.logs := by
          simp [Page.handleScan, he, hu]
        rw [heq] at h
        exact (logs_no_append h).elim
      | ret =>
        rcases hcur : st.getParticipantCurrentActivity pid with _ | ca
        · have heq : (Page.handleScan ⟨some e, some u, ScanType.ret, sel,
              false, cf, uf⟩ st pid aid).2.logs = st.logs := by
            simp [Page.handleScan, he, hu, hcur]
          rw [heq] at h
          exact (logs_no_append h).elim
        cases cf with
        | true =>
          have heq : (Page.handleScan ⟨some e, some u, ScanType.ret, sel,
              false, true, uf⟩ st pid aid).2.logs = st.logs := by
            simp [Page.handleScan, he, hu, hcur]
          rw [heq] at h
          exact (logs_no_append h).elim
        | false =>
          have heq : (Page.handleScan ⟨some e, some u, ScanType.ret, sel,
              false, false, uf⟩ st pid aid).2.logs =
              st.logs ++ [⟨e, pid, some ca.id, none, u, LogType.ret⟩] := by
            cases uf <;>
              simp [Page.handleScan, he, hu, hcur, Store.createActivityLog,
                Store.updateParticipantLocation]
          rw [heq] at h
          have hl := append_singleton_inj h
          rw [← hl] at hty
          simp at hty
      | departure =>
        rcases hcur : st.getParticipantCurrentActivity pid with _ | ca
        · cases cf with
          | true =>
            have heq : (Page.handleScan ⟨some e, some u, ScanType.departure,
                sel, false, true, uf⟩ st pid aid).2.logs = st.logs := by
              simp [Page.handleScan, he, hu, hcur]
            rw [heq] at h
            exact (logs_no_append h).elim
          | false =>
            have heq : (Page.handleScan ⟨some e, some u, ScanType.departure,
                sel, false, false, uf⟩ st pid aid).2.logs =
                st.logs ++ [⟨e, pid, aid, none, u, LogType.departure⟩] := by
              cases uf <;>
                simp [Page.handleScan, he, hu, hcur, Store.createActivityLog,
                  Store.updateParticipantLocation]
            rw [heq] at h
            have hl := append_singleton_inj h
            rw [← hl] at hty
            simp at hty
        · by_cases hg : some ca.id = aid
          · have heq : (Page.handleScan ⟨some e, some u, ScanType.departure,
                sel, false, cf, uf⟩ st pid aid).2.logs = st.logs := by
              simp [Page.handleScan, he, hu, hcur, hg]
            rw [heq] at h
            exact (logs_no_append h).elim
          cases cf with
          | true =>
            have heq : (Page.handleScan ⟨some e, some u, ScanType.departure,
                sel, false, true, uf⟩ st pid aid).2.logs = st.logs := by
              simp [Page.handleScan, he, hu, hcur, hg]
            rw [heq] at h
            exact (logs_no_append h).elim
          | false =>
            have heq : (Page.handleScan ⟨some e, some u, ScanType.departure,
                sel, false, false, uf⟩ st pid aid).2.logs =
                st.logs ++ [⟨e, pid, aid, some ca.id, u, LogType.change⟩] := by
              cases uf <;>
                simp [Page.handleScan, he, hu, hcur, hg, Store.createActivityLog,
                  Store.updateParticipantLocation]
            rw [heq] at h
            have hl := append_singleton_inj h
            subst hl
            exact ⟨rfl, ca, rfl, rfl, fun hco => hg hco.symm⟩
  · intro a hsty hcur haid
    rw [haid]
    exact handleScan_guard_reject env st pid a hsty hcur
  · intro hsty hcur
    exact handleScan_ret_reject env st pid aid hsty hcur

/-- C6 witness at concrete inputs: a committed change scan, a stale
duplicate departure, and a stale empty return. -/
theorem c6_change_log_validity_witness :
    (envDep.fetchCurrentFails = false ∧
      ∃ a : Activity, stArt.getParticipantCurrentActivity "p1" = some a ∧
        (⟨"e1", "p1", some "a2", some "a1", "l1", LogType.change⟩ :
            ActivityLog).fromActivityId = some a.id ∧
        (⟨"e1", "p1", some "a2", some "a1", "l1", LogType.change⟩ :
            ActivityLog).activityId ≠
          (⟨"e1", "p1", some "a2", some "a1", "l1", LogType.change⟩ :
            ActivityLog).fromActivityId) ∧
    Page.handleScan envDep stArt "p1" (some "a1") = (false, stArt) ∧
    Page.handleScan envRet stCamp "p1" none = (false, stCamp) :=
  ⟨(c6_change_log_validity envDep stArt "p1" (some "a2")).1
      ⟨"e1", "p1", some "a2", some "a1", "l1", LogType.change⟩ (by decide) rfl,
    (c6_change_log_validity envDep stArt "p1" (some "a1")).2.1 actArt rfl
      (by decide) rfl,
    (c6_change_log_validity envRet stCamp "p1" none).2.2 rfl (by decide)⟩

/-- C4: a departure scan of a participant already at the selected activity
is rejected by the component: the store is untouched, a transient error
containing the participant name is shown, no modal opens, the error sound
plays, the three second cooldown is scheduled, firing it clears the error,
and the commit-level guard would likewise reject without a write. -/
theorem c4_duplicate_departure_rejected (env : CompEnv) (st : Store)
    (cs : CompState) (ts : TimerState) (text : String) (p : Participant)
    (ca A : Activity)
    (hty : env.scanType = ScanType.departure)
    (hsel : env.selectedActivity = some A)
    (hinfo : env.infoLookupFails = false)
    (hcurf : env.currentLookupFails = false)
    (htext : text ≠ "")
    (hscan : cs.scanning = true)
    (hfind : st.getParticipantByQrCode (trimString text) = some p)
    (hcur : st.getParticipantCurrentActivity p.id = some ca)
    (hid : ca.id = A.id) :
    (Comp.handleScan env st cs ts (some text)).store = st ∧
    (Comp.handleScan env st cs ts (some text)).comp.error =
      some (p.name ++ " is already at " ++ ca.name ++ ".") ∧
    (Comp.handleScan env st cs ts (some text)).comp.confirmModalOpen =
      cs.confirmModalOpen ∧
    (Comp.handleScan env st cs ts (some text)).sounds = [Sound.error] ∧
    (Comp.handleScan env st cs ts (some text)).timers =
      (resetIdleTimer ts).schedule TimerKind.errCooldown ∧
    (Comp.guardCooldownFire (Comp.handleScan env st cs ts (some text)).comp
        (Comp.handleScan env st cs ts (some text)).timers).1.error = none ∧
    (∀ penv : PageEnv, penv.scanType = ScanType.departure →
      Page.handleScan penv st p.id (some ca.id) = (false, st)) := by
  refine ⟨?_, ?_, ?_, ?_, ?_, ?_,
    fun penv hp => handleScan_guard_reject penv st p.id ca hp hcur⟩ <;>
    simp [Comp.handleScan, Comp.processCode, Page.getCurrentActivityWrapped,
      hty, hsel, hinfo, hcurf, htext, hscan, hfind, hcur, hid,
      Comp.guardCooldownFire, Comp.resetScanner]

/-- C4 witness at a concrete input, exercising the trim of the payload. -/
theorem c4_duplicate_departure_rejected_witness :
    (Comp.handleScan envCompDepArt stArt initComp initTimers
        (some " qr1 ")).store = stArt ∧
    (Comp.handleScan envCompDepArt stArt initComp initTimers
        (some " qr1 ")).comp.error =
      some ("Alice" ++ " is already at " ++ "Art" ++ ".") ∧
    (Comp.handleScan envCompDepArt stArt initComp initTimers
        (some " qr1 ")).comp.confirmModalOpen = initComp.confirmModalOpen ∧
    (Comp.handleScan envCompDepArt stArt initComp initTimers
        (some " qr1 ")).sounds = [Sound.error] ∧
    (Comp.handleScan envCompDepArt stArt initComp initTimers
        (some " qr1 ")).timers =
      (resetIdleTimer initTimers).schedule TimerKind.errCooldown ∧
    (Comp.guardCooldownFire
        (Comp.handleScan envCompDepArt stArt initComp initTimers
          (some " qr1 ")).comp
        (Comp.handleScan envCompDepArt stArt initComp initTimers
          (some " qr1 ")).timers).1.error = none ∧
    Page.handleScan envDep stArt "p1" (some "a1") = (false, stArt) := by
  have h := c4_duplicate_departure_rejected envCompDepArt stArt initComp
    initTimers " qr1 " alice actArt actArt rfl rfl rfl rfl (by decide) rfl
    (by decide) (by decide) rfl
  exact ⟨h.1, h.2.1, h.2.2.1, h.2.2.2.1, h.2.2.2.2.1, h.2.2.2.2.2.1,
    h.2.2.2.2.2.2 envDep rfl⟩

/-- C10: the decoded payload is trimmed before the participant lookup, so
two nonempty payloads whose trims agree produce identical component
behaviour. -/
theorem c10_trimmed_code_lookup (env : CompEnv) (st : Store) (cs : CompState)
    (ts : TimerState) (t1 t2 : String)
    (h : trimString t1 = trimString t2) (h1 : t1 ≠ "") (h2 : t2 ≠ "") :
    Comp.handleScan env st cs ts (some t1) =
      Comp.handleScan env st cs ts (some t2) := by
  by_cases hs : cs.scanning = false
  · simp [Comp.handleScan, hs]
  · simp [Comp.handleScan, h1, h2, hs, h]

/-- C10 witness: a payload with surrounding whitespace behaves exactly
like the bare payload. -/
theorem c10_trimmed_code_lookup_witness :
    Comp.handleScan envCompDepMusic stArt initComp initTimers (some " qr1 ") =
      Comp.handleScan envCompDepMusic stArt initComp initTimers (some "qr1") :=
  c10_trimmed_code_lookup envCompDepMusic stArt initComp initTimers
    " qr1 " "qr1" (by decide) (by decide) (by decide)

/-- C7: cancelling from the confirmation modal, repeated any number of
times, never touches the store: the log list and every location pointer
stay untouched; the modal closes, the scanned participant is cleared, the
half second re-arm delay is scheduled and its firing chain re-arms the
scanner. -/
theorem c7_cancel_never_mutates (n : Nat) (cs : CompState) (ts : TimerState)
    (st : Store) :
    (Comp.cancelN n cs ts st).store = st ∧
    (Comp.cancelN n cs ts st).comp.confirmModalOpen = false ∧
    (Comp.cancelN n cs ts st).comp.scannedParticipant = none ∧
    (Comp.cancelN n cs ts st).comp.currentActivity = none ∧
    (Comp.handleCancel cs ts st).timers = ts.schedule TimerKind.postCancel ∧
    (Comp.rearmFire
        (Comp.postCancelFire (Comp.handleCancel cs ts st).comp
          (Comp.handleCancel cs ts st).timers).1
        (Comp.postCancelFire (Comp.handleCancel cs ts st).comp
          (Comp.handleCancel cs ts st).timers).2).1.scanning = true := by
  refine ⟨?_, ?_, ?_, ?_, rfl, rfl⟩ <;>
    induction n with
    | zero => rfl
    | succ m ih => simp [Comp.cancelN, Comp.handleCancel, ih]

/-- C9 counterexample: two rapid resets of the scanner leave two re-arm
timers of the same kind pending at once, because the 500 millisecond
re-arm timeout of resetScanner is anonymous and never cleared. -/
theorem c9_untracked_rearm_counterexample :
    (Comp.resetScanner (Comp.resetScanner initComp initTimers).1
        (Comp.resetScanner initComp initTimers).2).2.pending =
      [⟨0, TimerKind.rearmDelay⟩, ⟨1, TimerKind.rearmDelay⟩] ∧
    ((Comp.resetScanner (Comp.resetScanner initComp initTimers).1
        (Comp.resetScanner initComp initTimers).2).2.pending.countP
      (fun t => t.kind == TimerKind.rearmDelay)) = 2 := by
  decide

/-- Helper: after clearing the stored idle timeout no idle timer is
pending, given the idle invariant held. -/
theorem clearIdle_no_idle (ts : TimerState)
    (h : ∀ t ∈ ts.pending, t.kind = TimerKind.idle → ts.idleRef = some t.id) :
    ∀ t ∈ ts.clearIdleTimeout.pending, ¬t.kind = TimerKind.idle := by
  intro t ht hk
  unfold TimerState.clearIdleTimeout at ht
  cases href : ts.idleRef with
  | none =>
    rw [href] at ht
    have h2 := h t ht hk
    rw [href] at h2
    exact Option.noConfusion h2
  | some i =>
    rw [href] at ht
    simp only [List.mem_filter] at ht
    have h2 := h t ht.1 hk
    rw [href] at h2
    have h3 : t.id = i := by
      injection h2 with h4
      exact h4.symm
    have h5 := ht.2
    rw [h3] at h5
    simp at h5

/-- Helper: the count of pending idle timers after clearing the stored
idle timeout is zero, given the idle invariant held. -/
theorem countIdle_clear (ts : TimerState)
    (h : ∀ t ∈ ts.pending, t.kind = TimerKind.idle → ts.idleRef = some t.id) :
    countIdle ts.clearIdleTimeout = 0 := by
  unfold countIdle
  rw [List.countP_eq_zero]
  intro t ht
  have h2 := clearIdle_no_idle ts h t ht
  simpa using h2

/-- Helper: the idle-timer invariant is preserved by every timer
operation of the component. -/
theorem idleOk_step (ts : TimerState) (op : TimerOp) (h : IdleOk ts) :
    IdleOk (timerStep ts op) := by
  obtain ⟨h1, h2⟩ := h
  cases op with
  | resetIdleOp =>
    simp only [timerStep]
    constructor
    · intro t ht hk
      unfold resetIdleTimer TimerState.scheduleIdle at ht ⊢
      simp only [List.mem_append, List.mem_singleton] at ht
      cases ht with
      | inl hmem => exact absurd hk (clearIdle_no_idle ts h1 t hmem)
      | inr heq => rw [heq]
    · unfold resetIdleTimer TimerState.scheduleIdle countIdle
      simp only [List.countP_append]
      have h3 := countIdle_clear ts h1
      unfold countIdle at h3
      rw [h3]
      simp
  | resetScannerOp =>
    simp only [timerStep]
    constructor
    · intro t ht hk
      unfold TimerState.schedule at ht
      simp only [List.mem_append, List.mem_singleton] at ht
      cases ht with
      | inl hmem => exact absurd hk (clearIdle_no_idle ts h1 t hmem)
      | inr heq => rw [heq] at hk; exact absurd hk (by simp)
    · unfold TimerState.schedule countIdle
      simp only [List.countP_append]
      have h3 := countIdle_clear ts h1
      unfold countIdle at h3
      rw [h3]
      simp
  | cooldownOp =>
    simp only [timerStep]
    constructor
    · intro t ht hk
      unfold TimerState.schedule at ht
      simp only [List.mem_append, List.mem_singleton] at ht
      cases ht with
      | inl hmem => exact h1 t hmem hk
      | inr heq => rw [heq] at hk; exact absurd hk (by simp)
    · unfold TimerState.schedule countIdle
      simp only [List.countP_append]
      unfold countIdle at h2
      simpa using h2
  | postConfirmOp =>
    simp only [timerStep]
    constructor
    · intro t ht hk
      unfold TimerState.schedule at ht
      simp only [List.mem_append, List.mem_singleton] at ht
      cases ht with
      | inl hmem => exact h1 t hmem hk
      | inr heq => rw [heq] at hk; exact absurd hk (by simp)
    · unfold TimerState.schedule countIdle
      simp only [List.countP_append]
      unfold countIdle at h2
      simpa using h2
  | postCancelOp =>
    simp only [timerStep]
    constructor
    · intro t ht hk
      unfold TimerState.schedule at ht
      simp only [List.mem_append, List.mem_singleton] at ht
      cases ht with
      | inl hmem => exact h1 t hmem hk
      | inr heq => rw [heq] at hk; exact absurd hk (by simp)
    · unfold TimerState.schedule countIdle
      simp only [List.countP_append]
      unfold countIdle at h2
      simpa using h2
  | fireOp i =>
    simp only [timerStep]
    constructor
    · intro t ht hk
      simp only [timerStep, List.mem_filter] at ht
      exact h1 t ht.1 hk
    · unfold countIdle
      calc (ts.pending.filter (fun t => t.id != i)).countP
            (fun t => t.kind == TimerKind.idle)
          ≤ ts.pending.countP (fun t => t.kind == TimerKind.idle) :=
            (List.filter_sublist ts.pending).countP_le _
        _ ≤ 1 := h2

/-- Helper: the idle-timer invariant holds along every run of timer
operations from an invariant-satisfying start state. -/
theorem idleOk_run (ops : List TimerOp) (ts : TimerState) (h : IdleOk ts) :
    IdleOk (ops.foldl timerStep ts) := by
  induction ops generalizing ts with
  | nil => exact h
  | cons op rest ih => exact ih (timerStep ts op) (idleOk_step ts op h)

/-- C9 amended: along every sequence of the timer operations the scanner
performs, at most one idle timer is ever pending, because the idle timeout
is the one timer whose handle is stored and cleared before rescheduling. -/
theorem c9_idle_timer_at_most_one (ops : List TimerOp) :
    countIdle (ops.foldl timerStep initTimers) ≤ 1 :=
  (idleOk_run ops initTimers ⟨by intro t ht; simp [initTimers] at ht,
    by simp [countIdle, initTimers]⟩).2

/-- C5: at a concrete input where the appendActivityLog call rejects, the
page commit resolves to false (the caller is informed), but the component
confirm handler discards that boolean and follows the success path: no
error message, no error sound, the modal closes and the one second
post-confirm re-arm is scheduled instead of the error cooldown, and
nothing was written to the log. -/
theorem c5_commit_failure_silent :
    (Page.validateAndHandleScan envDepFailLog stArt "p1" (some "a2")).1 =
      false ∧
    (Comp.handleConfirm envDepFailLog envCompDepMusic stArt csAwaiting
        initTimers).sounds = [] ∧
    (Comp.handleConfirm envDepFailLog envCompDepMusic stArt csAwaiting
        initTimers).comp.error = none ∧
    (Comp.handleConfirm envDepFailLog envCompDepMusic stArt csAwaiting
        initTimers).comp.confirmModalOpen = false ∧
    (Comp.handleConfirm envDepFailLog envCompDepMusic stArt csAwaiting
        initTimers).timers = initTimers.schedule TimerKind.postConfirm ∧
    (Comp.handleConfirm envDepFailLog envCompDepMusic stArt csAwaiting
        initTimers).store.logs = stArt.logs := by
  refine ⟨?_, ?_, ?_, ?_, ?_, ?_⟩ <;> decide

end QrCheckin
